import Mathlib

/-!
Shallow embedding of `Firestore/core/src/firebase/firestore/core/event_listener.h`
(`EventListener<T>`, `AsyncEventListener<T>`), together with proofs of the
specification's claims about it.

The C++ unit is a decorator that forwards `OnEvent(StatusOr<T>)` calls to a
delegate listener through an executor: `OnEvent` retains a strong self
reference (`shared_from_this`) and submits one task capturing the result by
value; the task, when the executor runs it, acquires a recursive mutex, checks
the `muted_` flag and forwards to `delegate_->OnEvent` only when not muted.
`Mute` acquires the same mutex and sets `muted_ = true`.

The embedding makes the implicit execution structure explicit:
  - the executor is a FIFO list of not-yet-dispatched tasks (`pending`), each
    holding the captured result;
  - calls into `delegate_->OnEvent` are logged in order (`delivered`);
  - the strong references of `shared_ptr` are counted (`externalRefs` for
    references held outside queued tasks, one more per queued task);
  - the `std::recursive_mutex` is a record of owning thread and recursion
    depth, with `tryLock` returning `none` when the acquisition would block;
  - the body of the queued task is additionally rendered as a trace of
    lock/call actions to state where the lock is held.
-/

namespace Firestore

/-- The payload type `util::StatusOr<T>`: either a success value of type `T`
or an error carrying a status code. -/
inductive StatusOr (T : Type) where
  | ok (value : T)
  | err (status : Nat)
deriving DecidableEq, Repr

/-- Mapping the success payload. Used only to state that the listener forwards
results without inspecting or transforming them (naturality). -/
def StatusOr.map {T U : Type} (f : T → U) : StatusOr T → StatusOr U
  | .ok v => .ok (f v)
  | .err s => .err s

/-- A `std::recursive_mutex`: the owning thread, if any, and the recursion
depth of that owner's acquisitions. -/
structure RecursiveMutex where
  owner : Option Nat
  depth : Nat
deriving DecidableEq, Repr

/-- A mutex held by nobody. -/
def RecursiveMutex.unlocked : RecursiveMutex := ⟨none, 0⟩

/-- Acquisition by thread `tid`: succeeds immediately when the mutex is free or
already owned by `tid` (recursive acquisition); `none` means the call would
block on another owner. -/
def RecursiveMutex.tryLock (m : RecursiveMutex) (tid : Nat) : Option RecursiveMutex :=
  match m.owner with
  | none => some ⟨some tid, 1⟩
  | some o => if o = tid then some ⟨some o, m.depth + 1⟩ else none

/-- Release by the owner: drops one level of recursion, freeing the mutex when
the last level is released. -/
def RecursiveMutex.unlock (m : RecursiveMutex) : RecursiveMutex :=
  if m.depth ≤ 1 then ⟨none, 0⟩ else ⟨m.owner, m.depth - 1⟩

/-- State of one `AsyncEventListener<T>` together with its executor queue and
the log of calls made into its delegate. -/
structure AsyncEventListener (T : Type) where
  /-- Identity of the shared executor (`executor_`); opaque. -/
  executor_ : Nat
  /-- Identity of the exclusively owned delegate (`delegate_`); opaque. -/
  delegate_ : Nat
  /-- The recursive mutex `mutex_` protecting `muted_` and delegate calls. -/
  mutex_ : RecursiveMutex
  /-- The flag `muted_`, initialized `false` in the class. -/
  muted_ : Bool
  /-- Whether the object is managed by a `shared_ptr` control block (true for
  instances made by `Create` / `make_shared`). -/
  sharedOwned : Bool
  /-- Strong references held outside queued tasks. -/
  externalRefs : Nat
  /-- Tasks submitted to the executor and not yet dispatched, oldest first;
  each entry is the `maybe_value` the task captured by value. -/
  pending : List (StatusOr T)
  /-- Arguments of the calls made to `delegate_->OnEvent`, in order. -/
  delivered : List (StatusOr T)
deriving DecidableEq, Repr

namespace AsyncEventListener

variable {T U : Type}

/-- The constructor body: stores executor and delegate, `muted_ = false`,
empty queue; how the object is owned is determined by the allocation site. -/
def construct (T : Type) (executor delegate : Nat) (sharedOwned : Bool)
    (externalRefs : Nat) : AsyncEventListener T :=
  { executor_ := executor
    delegate_ := delegate
    mutex_ := RecursiveMutex.unlocked
    muted_ := false
    sharedOwned := sharedOwned
    externalRefs := externalRefs
    pending := []
    delivered := [] }

/-- `AsyncEventListener<T>::Create`: `make_shared` places the new instance
under a `shared_ptr` control block holding one strong reference. -/
def Create (T : Type) (executor delegate : Nat) : AsyncEventListener T :=
  construct T executor delegate true 1

/-- Number of strong self references held by queued tasks (one per task, see
the `shared_this` capture in `OnEvent`). -/
def taskRefs (l : AsyncEventListener T) : Nat := l.pending.length

/-- Total strong reference count of the instance. -/
def refCount (l : AsyncEventListener T) : Nat := l.externalRefs + l.taskRefs

/-- Every external strong reference to the listener is dropped; references
held by queued tasks remain. -/
def releaseAllExternal (l : AsyncEventListener T) : AsyncEventListener T :=
  { l with externalRefs := 0 }

/-- `AsyncEventListener<T>::Mute`: acquire `mutex_` (via `lock_guard`), set
`muted_ = true`, release on scope exit. The mutex returns to its prior state,
so at the state level only the flag changes. -/
def Mute (l : AsyncEventListener T) : AsyncEventListener T :=
  { l with muted_ := true }

/-- `AsyncEventListener<T>::OnEvent`: retains a strong self reference
(`shared_this`) and submits one task to `executor_` capturing `shared_this`
and `maybe_value` by value; the delegate is not called on the caller's
thread. -/
def OnEvent (l : AsyncEventListener T) (maybe_value : StatusOr T) :
    AsyncEventListener T :=
  { l with pending := l.pending ++ [maybe_value] }

/-- The executor dispatches the oldest queued task: the task body acquires
`mutex_`, forwards the captured result to `delegate_->OnEvent` only when
`muted_` is false, and releases the lock either way; the task's strong self
reference is dropped when it finishes. -/
def runTask (l : AsyncEventListener T) : AsyncEventListener T :=
  match l.pending with
  | [] => l
  | v :: rest =>
    if l.muted_ then { l with pending := rest }
    else { l with pending := rest, delivered := l.delivered ++ [v] }

/-- The executor dispatches `n` tasks in order. -/
def runTasks (l : AsyncEventListener T) : Nat → AsyncEventListener T
  | 0 => l
  | n + 1 => l.runTask.runTasks n

/-- Payload mapping lifted to the listener state, touching only the captured
and delivered results. -/
def mapPayload (f : T → U) (l : AsyncEventListener T) : AsyncEventListener U :=
  { executor_ := l.executor_
    delegate_ := l.delegate_
    mutex_ := l.mutex_
    muted_ := l.muted_
    sharedOwned := l.sharedOwned
    externalRefs := l.externalRefs
    pending := l.pending.map (StatusOr.map f)
    delivered := l.delivered.map (StatusOr.map f) }

end AsyncEventListener

/-- The operations the component exposes, plus the executor dispatching one
task; a history of the instance is a list of these. -/
inductive Op (T : Type) where
  | receive (v : StatusOr T)
  | mute
  | run
deriving DecidableEq, Repr

/-- One operation applied to the listener state. -/
def step {T : Type} (l : AsyncEventListener T) : Op T → AsyncEventListener T
  | .receive v => l.OnEvent v
  | .mute => l.Mute
  | .run => l.runTask

/-- A sequence of operations applied in order. -/
def steps {T : Type} (l : AsyncEventListener T) (ops : List (Op T)) :
    AsyncEventListener T :=
  ops.foldl step l

/-- Observable actions of the queued task's body, used to state where the lock
is held and what the task may do. -/
inductive Action (T : Type) where
  | lockAcquire
  | lockRelease
  | delegateCall (v : StatusOr T)
  | errorRaised
deriving DecidableEq, Repr

/-- Recognizes a lock acquisition. -/
def Action.isAcquire {T : Type} : Action T → Bool
  | .lockAcquire => true
  | _ => false

/-- Recognizes a lock release. -/
def Action.isRelease {T : Type} : Action T → Bool
  | .lockRelease => true
  | _ => false

/-- Recognizes a call into the delegate. -/
def Action.isDelegateCall {T : Type} : Action T → Bool
  | .delegateCall _ => true
  | _ => false

/-- The actions the queued task body performs, in order, given the value of
`muted_` it observes under the lock: the `lock_guard` acquires `mutex_`; when
not muted the captured result is forwarded to the delegate; the guard releases
on scope exit. No other action occurs in the body. -/
def deliveryTaskTrace {T : Type} (muted : Bool) (v : StatusOr T) : List (Action T) :=
  Action.lockAcquire :: (if muted then [] else [Action.delegateCall v]) ++ [Action.lockRelease]

/-- The lock is held right before position `i` of the trace when more
acquisitions than releases precede `i`. -/
def lockHeldBefore {T : Type} (tr : List (Action T)) (i : Nat) : Prop :=
  (tr.take i).countP Action.isRelease < (tr.take i).countP Action.isAcquire

/-- The oldest queued delivery task run on thread `tid` in the case where the
delegate's own `OnEvent` body calls `Mute()` back on the same listener (a
reentrant unsubscribe). Lock acquisitions use `tryLock`; a result of `none`
means some acquisition would block forever, i.e. the run deadlocks. The inner
`Mute` acquires `mutex_` while the task already holds it, sets `muted_` and
releases its guard; then the delegate returns and the outer guard releases. -/
def runTaskNestedMute {T : Type} (l : AsyncEventListener T) (tid : Nat) :
    Option (AsyncEventListener T) :=
  match l.pending with
  | [] => some l
  | v :: rest =>
    match l.mutex_.tryLock tid with
    | none => none
    | some m1 =>
      if l.muted_ then some { l with pending := rest, mutex_ := m1.unlock }
      else
        match m1.tryLock tid with
        | none => none
        | some m2 =>
          some { l with
                 pending := rest
                 delivered := l.delivered ++ [v]
                 muted_ := true
                 mutex_ := m2.unlock.unlock }

/-- The listener produced by `EventListener<T>::Create`: the local class
`CallbackEventListener` holding the moved-in callback `callback_`. The
callback is modelled as a state transformer over an arbitrary state `σ` so
that its side effects are observable. -/
structure CallbackEventListener (T σ : Type) where
  callback_ : StatusOr T → σ → σ

/-- `EventListener<T>::Create`: constructs a `CallbackEventListener` storing
the given callback. -/
def EventListener.Create {T σ : Type} (callback : StatusOr T → σ → σ) :
    CallbackEventListener T σ :=
  { callback_ := callback }

/-- `CallbackEventListener::OnEvent`: invokes `callback_(maybe_value)`. -/
def CallbackEventListener.OnEvent {T σ : Type} (l : CallbackEventListener T σ)
    (maybe_value : StatusOr T) (st : σ) : σ :=
  l.callback_ maybe_value st

/-- A callback whose state is the list of arguments it has been invoked with,
used to observe how many times and with what values `OnEvent` invokes the
stored callback. -/
def recordingCallback (T : Type) : StatusOr T → List (StatusOr T) → List (StatusOr T) :=
  fun v log => log ++ [v]

/-- Outcome of calling `AsyncEventListener::OnEvent` including its very first
step `this->shared_from_this()`. -/
inductive OnEventOutcome (T : Type) where
  /-- `shared_from_this` on an instance with no `shared_ptr` control block:
  `std::bad_weak_ptr` (or undefined behavior before C++17), before any task
  submission. -/
  | badWeakPtr
  /-- The strong self reference was obtained and one task was submitted,
  leaving the listener in the given state. -/
  | submitted (l : AsyncEventListener T)
deriving DecidableEq, Repr

/-- `shared_from_this`: yields a strong reference to the instance only when it
is already managed by a `shared_ptr` control block. -/
def sharedFromThis {T : Type} (l : AsyncEventListener T) :
    Option (AsyncEventListener T) :=
  if l.sharedOwned then some l else none

/-- `AsyncEventListener::OnEvent` with its first step `shared_from_this` made
explicit: when that step fails, the call fails before any task is submitted;
otherwise the submission proceeds as in `OnEvent`. -/
def OnEventChecked {T : Type} (l : AsyncEventListener T) (v : StatusOr T) :
    OnEventOutcome T :=
  match sharedFromThis l with
  | none => OnEventOutcome.badWeakPtr
  | some self => OnEventOutcome.submitted (self.OnEvent v)

/-- Dispatching one task never changes the `muted_` flag. -/
theorem AsyncEventListener.runTask_muted {T : Type} (l : AsyncEventListener T) :
    l.runTask.muted_ = l.muted_ := by
  cases hp : l.pending with
  | nil => simp [AsyncEventListener.runTask, hp]
  | cons v rest =>
    cases hm : l.muted_ <;> simp [AsyncEventListener.runTask, hp, hm]

/-- A muted listener's dispatched task does not grow the delivered log. -/
theorem AsyncEventListener.runTask_delivered_of_muted {T : Type}
    (l : AsyncEventListener T) (h : l.muted_ = true) :
    l.runTask.delivered = l.delivered := by
  cases hp : l.pending with
  | nil => simp [AsyncEventListener.runTask, hp]
  | cons v rest => simp [AsyncEventListener.runTask, hp, h]

/-- On a muted listener, any number of dispatches leaves the flag set and the
delivered log unchanged. -/
theorem AsyncEventListener.runTasks_of_muted {T : Type}
    (l : AsyncEventListener T) (n : Nat) (h : l.muted_ = true) :
    (l.runTasks n).muted_ = true ∧ (l.runTasks n).delivered = l.delivered := by
  induction n generalizing l with
  | zero => exact ⟨h, rfl⟩
  | succ n ih =>
    have hm : l.runTask.muted_ = true := by
      rw [AsyncEventListener.runTask_muted]; exact h
    have := ih l.runTask hm
    refine ⟨this.1, ?_⟩
    rw [AsyncEventListener.runTasks, this.2,
      AsyncEventListener.runTask_delivered_of_muted l h]

/-- Claim C1: any delivery task dispatched strictly after `Mute` has returned
observes `muted_ = true` and does not invoke the delegate: after `Mute`,
dispatching any number of queued tasks leaves the delivered log unchanged; in
particular, receiving `success(5)` and muting before the executor runs the
task means the delegate's `OnEvent` is never called. -/
theorem mute_suppresses_later_dispatch {T : Type} (l : AsyncEventListener T)
    (n : Nat) :
    (l.Mute.runTasks n).muted_ = true ∧
    (l.Mute.runTasks n).delivered = l.delivered ∧
    ((AsyncEventListener.Create Nat 0 0).OnEvent
        (StatusOr.ok 5)).Mute.runTask.delivered = [] := by
  have h := AsyncEventListener.runTasks_of_muted l.Mute n rfl
  exact ⟨h.1, h.2, rfl⟩

/-- Claim C2: the delegate is called only while the mutex is held and only
when the observed `muted_` is false; when muted, the task's trace is acquire
then release, with no delegate call and no error raised. -/
theorem delegate_call_locked_unmuted {T : Type} (muted : Bool) (v : StatusOr T) :
    (∀ w : StatusOr T,
        Action.delegateCall w ∈ deliveryTaskTrace muted v →
        muted = false ∧ w = v) ∧
    (∀ i : Fin (deliveryTaskTrace muted v).length,
        ((deliveryTaskTrace muted v).get i).isDelegateCall = true →
        lockHeldBefore (deliveryTaskTrace muted v) i.val) ∧
    deliveryTaskTrace true v = [Action.lockAcquire, Action.lockRelease] ∧
    Action.errorRaised ∉ deliveryTaskTrace muted v := by
  refine ⟨?_, ?_, rfl, ?_⟩
  · intro w hw
    cases muted <;> simp [deliveryTaskTrace] at hw ⊢
    exact hw
  · intro i hi
    cases muted <;>
      fin_cases i <;>
      simp_all [deliveryTaskTrace, Action.isDelegateCall, lockHeldBefore,
        Action.isAcquire, Action.isRelease, List.countP_cons]
  · cases muted <;> simp [deliveryTaskTrace]

/-- Claim C2 witness at a concrete muted trace. -/
theorem delegate_call_locked_unmuted_witness :
    deliveryTaskTrace true (StatusOr.ok (5 : Nat)) =
      [Action.lockAcquire, Action.lockRelease] ∧
    Action.errorRaised ∉ deliveryTaskTrace true (StatusOr.ok (5 : Nat)) :=
  ⟨(delegate_call_locked_unmuted true (StatusOr.ok 5)).2.2.1,
   (delegate_call_locked_unmuted true (StatusOr.ok 5)).2.2.2⟩

/-- Claim C3: `muted_` starts false at construction and is monotonic: `Mute`
sets it to true, and no operation (receive, mute, or task dispatch) ever
resets it to false. -/
theorem muted_monotonic {T : Type} (executor delegate : Nat)
    (l : AsyncEventListener T) (ops : List (Op T)) (h : l.muted_ = true) :
    (AsyncEventListener.Create T executor delegate).muted_ = false ∧
    l.Mute.muted_ = true ∧
    (steps l ops).muted_ = true := by
  refine ⟨rfl, rfl, ?_⟩
  induction ops generalizing l with
  | nil => exact h
  | cons op rest ih =>
    have h' : (step l op).muted_ = true := by
      cases op with
      | receive v => exact h
      | mute => rfl
      | run =>
        show l.runTask.muted_ = true
        rw [AsyncEventListener.runTask_muted]; exact h
    simpa [steps] using ih (step l op) h'

/-- Claim C3 witness on a concrete post-mute history. -/
theorem muted_monotonic_witness :
    (AsyncEventListener.Create Nat 0 0).muted_ = false ∧
    (AsyncEventListener.Create Nat 0 0).Mute.muted_ = true ∧
    (steps (AsyncEventListener.Create Nat 0 0).Mute
      [Op.run, Op.receive (StatusOr.ok 1), Op.mute, Op.run]).muted_ = true :=
  muted_monotonic 0 0 (AsyncEventListener.Create Nat 0 0).Mute
    [Op.run, Op.receive (StatusOr.ok 1), Op.mute, Op.run] rfl

/-- Claim C4: `OnEvent` never calls the delegate on the caller's thread, makes
exactly one submission to the executor per call with the result captured by
value, and the submitted task holds one additional strong self reference. -/
theorem onEvent_submits_once_async {T : Type} (l : AsyncEventListener T)
    (v : StatusOr T) :
    (l.OnEvent v).delivered = l.delivered ∧
    (l.OnEvent v).pending = l.pending ++ [v] ∧
    (l.OnEvent v).refCount = l.refCount + 1 := by
  refine ⟨rfl, rfl, ?_⟩
  simp [AsyncEventListener.OnEvent, AsyncEventListener.refCount,
    AsyncEventListener.taskRefs]
  omega

/-- Claim C5: `Mute` is idempotent: muting twice equals muting once, the flag
ends true, and the executor and delegate are untouched. -/
theorem mute_idempotent {T : Type} (l : AsyncEventListener T) :
    l.Mute.Mute = l.Mute ∧
    l.Mute.muted_ = true ∧
    l.Mute.executor_ = l.executor_ ∧
    l.Mute.delegate_ = l.delegate_ :=
  ⟨rfl, rfl, rfl, rfl⟩

/-- Claim C6: a task dispatched while not muted forwards exactly the captured
result to the delegate, unchanged, success and error alike; moreover dispatch
commutes with any mapping of the payload, so the component never inspects,
branches on, or transforms it. -/
theorem runTask_forwards_payload_unchanged {T U : Type} (f : T → U)
    (l : AsyncEventListener T) (v : StatusOr T) (rest : List (StatusOr T))
    (hm : l.muted_ = false) (hp : l.pending = v :: rest) :
    l.runTask.delivered = l.delivered ++ [v] ∧
    l.runTask.pending = rest ∧
    (l.mapPayload f).runTask = l.runTask.mapPayload f := by
  refine ⟨?_, ?_, ?_⟩
  · simp [AsyncEventListener.runTask, hp, hm]
  · simp [AsyncEventListener.runTask, hp, hm]
  · simp [AsyncEventListener.runTask, AsyncEventListener.mapPayload, hp, hm]

/-- Claim C6 witness: an error result is forwarded unchanged. -/
theorem runTask_forwards_payload_unchanged_witness :
    ((AsyncEventListener.Create Nat 0 0).OnEvent (StatusOr.err 7)).runTask.delivered
        = ((AsyncEventListener.Create Nat 0 0).OnEvent (StatusOr.err 7)).delivered
          ++ [StatusOr.err 7] ∧
    ((AsyncEventListener.Create Nat 0 0).OnEvent (StatusOr.err 7)).runTask.pending
        = [] ∧
    (((AsyncEventListener.Create Nat 0 0).OnEvent
        (StatusOr.err 7)).mapPayload Nat.succ).runTask
      = ((AsyncEventListener.Create Nat 0 0).OnEvent
          (StatusOr.err 7)).runTask.mapPayload Nat.succ :=
  runTask_forwards_payload_unchanged Nat.succ
    ((AsyncEventListener.Create Nat 0 0).OnEvent (StatusOr.err 7))
    (StatusOr.err 7) [] rfl rfl

/-- Claim C7: while a delivery task is queued, the instance stays alive even
after every external strong reference is released: each queued task holds a
strong self reference, so the reference count remains positive and the object
is not destroyed before the task runs. -/
theorem queued_task_keeps_alive {T : Type} (l : AsyncEventListener T)
    (h : l.pending ≠ []) :
    0 < l.releaseAllExternal.refCount ∧
    l.releaseAllExternal.taskRefs = l.taskRefs ∧
    0 < l.refCount := by
  have hlen : 0 < l.pending.length := List.length_pos.mpr h
  refine ⟨?_, rfl, ?_⟩ <;>
    simp [AsyncEventListener.releaseAllExternal, AsyncEventListener.refCount,
      AsyncEventListener.taskRefs] <;>
    omega

/-- Claim C7 witness: one queued task, external references all dropped. -/
theorem queued_task_keeps_alive_witness :
    0 < ((AsyncEventListener.Create Nat 0 0).OnEvent
        (StatusOr.ok 3)).releaseAllExternal.refCount ∧
    ((AsyncEventListener.Create Nat 0 0).OnEvent
        (StatusOr.ok 3)).releaseAllExternal.taskRefs
      = ((AsyncEventListener.Create Nat 0 0).OnEvent (StatusOr.ok 3)).taskRefs ∧
    0 < ((AsyncEventListener.Create Nat 0 0).OnEvent (StatusOr.ok 3)).refCount :=
  queued_task_keeps_alive
    ((AsyncEventListener.Create Nat 0 0).OnEvent (StatusOr.ok 3)) (by decide)

/-- Claim C8: calling `Mute` from inside the delegate's own `OnEvent` on the
same instance does not deadlock: the recursive mutex grants the nested
acquisition to the thread that already owns it, the dispatch completes, and
the listener ends muted with the mutex fully released. -/
theorem nested_mute_no_deadlock {T : Type} (l : AsyncEventListener T)
    (tid : Nat) (v : StatusOr T) (rest : List (StatusOr T))
    (hmx : l.mutex_ = RecursiveMutex.unlocked) (hm : l.muted_ = false)
    (hp : l.pending = v :: rest) :
    runTaskNestedMute l tid =
      some { l with
             pending := rest
             delivered := l.delivered ++ [v]
             muted_ := true
             mutex_ := RecursiveMutex.unlocked } ∧
    (∀ d : Nat,
      RecursiveMutex.tryLock ⟨some tid, d⟩ tid = some ⟨some tid, d + 1⟩) := by
  constructor
  · simp [runTaskNestedMute, hp, hmx, hm, RecursiveMutex.tryLock,
      RecursiveMutex.unlock, RecursiveMutex.unlocked]
  · intro d
    simp [RecursiveMutex.tryLock]

/-- Claim C8 witness: a concrete reentrant dispatch completes muted. -/
theorem nested_mute_no_deadlock_witness :
    runTaskNestedMute
        ((AsyncEventListener.Create Nat 0 0).OnEvent (StatusOr.ok 5)) 3 =
      some { (AsyncEventListener.Create Nat 0 0).OnEvent (StatusOr.ok 5) with
             pending := []
             delivered := [StatusOr.ok 5]
             muted_ := true
             mutex_ := RecursiveMutex.unlocked } ∧
    RecursiveMutex.tryLock ⟨some 3, 1⟩ 3 = some ⟨some 3, 2⟩ :=
  ⟨(nested_mute_no_deadlock
      ((AsyncEventListener.Create Nat 0 0).OnEvent (StatusOr.ok 5)) 3
      (StatusOr.ok 5) [] rfl rfl rfl).1,
   (nested_mute_no_deadlock
      ((AsyncEventListener.Create Nat 0 0).OnEvent (StatusOr.ok 5)) 3
      (StatusOr.ok 5) [] rfl rfl rfl).2 1⟩

/-- Claim C9: the closure-backed listener from `EventListener::Create` stores
the given callback and `OnEvent` invokes it exactly once with exactly the
given value, with no filtering or transformation, success and error alike. -/
theorem create_forwards_verbatim {T σ : Type} (cb : StatusOr T → σ → σ)
    (v : StatusOr T) (st : σ) (w : StatusOr T) (log : List (StatusOr T)) :
    (EventListener.Create cb).callback_ = cb ∧
    (EventListener.Create cb).OnEvent v st = cb v st ∧
    (EventListener.Create (recordingCallback T)).OnEvent w log = log ++ [w] :=
  ⟨rfl, rfl, rfl⟩

/-- Claim C10: `OnEvent` presupposes that the instance is managed by a
`shared_ptr` (as instances made by `Create` are), because it first calls
`shared_from_this`; on an instance with no control block that step fails
before any task is submitted, while under shared ownership the submission
proceeds. -/
theorem onEvent_requires_shared_ownership {T : Type}
    (l l' : AsyncEventListener T) (v : StatusOr T) (executor delegate : Nat)
    (h : l.sharedOwned = false) (h' : l'.sharedOwned = true) :
    OnEventChecked l v = OnEventOutcome.badWeakPtr ∧
    (AsyncEventListener.Create T executor delegate).sharedOwned = true ∧
    OnEventChecked l' v = OnEventOutcome.submitted (l'.OnEvent v) := by
  refine ⟨?_, rfl, ?_⟩ <;> simp [OnEventChecked, sharedFromThis, h, h']

/-- Claim C10 witness: a stack-style instance fails, a `Create` instance
submits. -/
theorem onEvent_requires_shared_ownership_witness :
    OnEventChecked (AsyncEventListener.construct Nat 0 0 false 1)
        (StatusOr.ok 5) = OnEventOutcome.badWeakPtr ∧
    (AsyncEventListener.Create Nat 0 0).sharedOwned = true ∧
    OnEventChecked (AsyncEventListener.Create Nat 0 0) (StatusOr.ok 5)
      = OnEventOutcome.submitted
          ((AsyncEventListener.Create Nat 0 0).OnEvent (StatusOr.ok 5)) :=
  onEvent_requires_shared_ownership
    (AsyncEventListener.construct Nat 0 0 false 1)
    (AsyncEventListener.Create Nat 0 0) (StatusOr.ok 5) 0 0 rfl rfl

end Firestore
